import Mathlib

/-!
# Verification of the CFE tariff scraper engine (`scraper.py`)

A shallow embedding of the hierarchical traversal / extraction / persistence
engine of `CFETariffScraperSimplified`, together with proofs about it.

Modelling conventions:
* Python strings are Lean `String`s; `str.replace` is embedded as `pyReplace`
  (substring replacement, which for the single-character patterns used by the
  program is proved equal to a character map / filter); `str.strip()` is
  embedded as `pyStrip`.
* The stateful Selenium-driven web form is embedded as an `Env` of oracles,
  one per call site of the driver, indexed by the logical coordinates
  (fare type, year, month, region value, municipality value, division value)
  at which the call is made; each coordinate is visited at most once per run,
  so this is fully general for deterministic remote behaviour.
* Fallible operations (`WebDriverWait ... until`, table lookup) are embedded
  as `Option` / `Bool` results; a raised-and-caught exception is the `none` /
  `false` case.
* The engine's side effects (dropdown selections, failure records, appended
  data) are made explicit: the traversal threads a state `St` holding the
  record store, the failure log and the trace of `select_dropdown_option`
  calls (`Ev` events).
-/

namespace Scraper

/-- Whitespace test used by Python's `str.strip()` (model). -/
def pyWS (c : Char) : Bool := c.isWhitespace

/-- Model of Python `str.strip()`: drop whitespace from both ends. -/
def pyStrip (s : String) : String :=
  ⟨((s.data.dropWhile pyWS).reverse.dropWhile pyWS).reverse⟩

/-- Model of Python `str.replace(pat, rep)` on the character list:
left-to-right, non-overlapping substring replacement (for non-empty `pat`). -/
def pyReplace (pat rep : List Char) : List Char → List Char
  | [] => []
  | x :: xs =>
    if pat ≠ [] ∧ pat.isPrefixOf (x :: xs) then
      rep ++ pyReplace pat rep (List.drop (pat.length - 1) xs)
    else
      x :: pyReplace pat rep xs
termination_by l => l.length
decreasing_by
  · simp only [List.length_drop, List.length_cons]
    omega
  · simp

/-- Model of Python `str.replace` on `String`. -/
def pyReplaceS (s pat rep : String) : String :=
  ⟨pyReplace pat.data rep.data s.data⟩

/-- Model of Python's substring containment `needle in hay`. -/
def hasSub (needle : List Char) : List Char → Bool
  | [] => needle.isPrefixOf []
  | x :: xs => needle.isPrefixOf (x :: xs) || hasSub needle xs

/-- `create_safe_filename` (scraper.py:72-78): chained single-character
`str.replace` calls mapping filesystem-hostile characters to `_`. -/
def create_safe_filename (name : String) : String :=
  let s1 := pyReplaceS (pyReplaceS (pyReplaceS name " " "_") "/" "_") "\\" "_"
  let s2 := pyReplaceS (pyReplaceS (pyReplaceS s1 ":" "_") "*" "_") "?" "_"
  let s3 := pyReplaceS (pyReplaceS (pyReplaceS s2 "\"" "_") "<" "_") ">" "_"
  pyReplaceS (pyReplaceS s3 "|" "_") "." "_"

/-- A rendered element: Selenium's `.text` and its `textContent` attribute. -/
structure Elem where
  text : String
  textContent : String
  deriving DecidableEq

/-- `extract_clean_text` (scraper.py:180-188): visible text, falling back to
raw `textContent` when the visible text is blank. -/
def extract_clean_text (e : Elem) : String :=
  let t := pyStrip e.text
  if t = "" then pyStrip e.textContent else t

/-- One `<tr>` of the results table: its `<th>` and `<td>` cells. -/
structure HtmlRow where
  th : List Elem
  td : List Elem
  deriving DecidableEq

/-- `get_month_name` (scraper.py:242-249). -/
def get_month_name (month_num : Nat) : String :=
  match month_num with
  | 1 => "ENERO" | 2 => "FEBRERO" | 3 => "MARZO" | 4 => "ABRIL"
  | 5 => "MAYO" | 6 => "JUNIO" | 7 => "JULIO" | 8 => "AGOSTO"
  | 9 => "SEPTIEMBRE" | 10 => "OCTUBRE" | 11 => "NOVIEMBRE" | 12 => "DICIEMBRE"
  | n => toString n

/-- One extracted table row (the dict built at scraper.py:215-228). -/
structure RowData where
  id : String
  region : String
  municipality : String
  division : String
  year : String
  month : Nat
  month_name : String
  extracted_at : String
  fare : String
  post : String
  units : String
  tariff_value : String
  deriving DecidableEq

/-- The row dict built for data row `i` (1-based position among the rows
after the header), from the last three `<td>` cells (scraper.py:209-228). -/
def mkRowData (fare region muni divi year : String) (month : Nat) (now : String)
    (i : Nat) (r : HtmlRow) : RowData :=
  let n := r.td.length
  { id := region ++ "_" ++ muni ++ "_" ++ divi ++ "_" ++ year ++ "_" ++
      toString month ++ "_" ++ toString i
    region := region
    municipality := muni
    division := divi
    year := year
    month := month
    month_name := get_month_name month
    extracted_at := now
    fare := fare
    post := extract_clean_text (r.td.getD (n - 3) ⟨"", ""⟩)
    units := extract_clean_text (r.td.getD (n - 2) ⟨"", ""⟩)
    tariff_value := pyReplaceS (extract_clean_text (r.td.getD (n - 1) ⟨"", ""⟩)) "," "" }

/-- The loop `for i, row in enumerate(rows[1:], 1)` of
`extract_table_data_simplified` (scraper.py:204-231): emit a record for each
row having at least 3 `<td>` cells, numbering rows by their raw 1-based
position. -/
def extractLoop (fare region muni divi year : String) (month : Nat) (now : String) :
    Nat → List HtmlRow → List RowData
  | _, [] => []
  | i, r :: rest =>
    if 3 ≤ r.td.length then
      mkRowData fare region muni divi year month now i r ::
        extractLoop fare region muni divi year month now (i + 1) rest
    else
      extractLoop fare region muni divi year month now (i + 1) rest

/-- `extract_table_data_simplified` (scraper.py:190-240). `table` is `none`
when the table lookup times out or any exception escapes (the `except`
branch returns `[]`); otherwise it is the list of `<tr>` rows. -/
def extract_table_data_simplified (fare region muni divi year : String)
    (month : Nat) (now : String) (table : Option (List HtmlRow)) : List RowData :=
  match table with
  | none => []
  | some rows =>
    if rows.length < 2 then []
    else extractLoop fare region muni divi year month now 1 (rows.drop 1)

/-- A dropdown `<option>`: its `value` attribute and its visible text. -/
structure Opt where
  value : String
  text : String
  deriving DecidableEq

/-- `get_available_options` (scraper.py:162-178). `dd` is `none` when the
control cannot be found or times out (the `except` branch returns `[]`);
otherwise it is the raw option list. Option text is stripped, then options
with empty/zero value, blank text, or placeholder text are dropped. -/
def get_available_options (dd : Option (List Opt)) : List Opt :=
  match dd with
  | none => []
  | some opts =>
    opts.filterMap fun o =>
      let text := pyStrip o.text
      if o.value ≠ "" ∧ o.value ≠ "0" ∧ text ≠ "" ∧
          ¬(hasSub "Seleccione".data text.data) ∧
          ¬(hasSub "Select".data text.data) then
        some ⟨o.value, text⟩
      else
        none

/-- `translate_text` (scraper.py:110-119). `tr` is the remote translation
oracle (`none` = the remote call raised). Returns the translation result
together with the list of remote invocations made. -/
def translate_text (tr : String → String → Option String) (text : String)
    (dest : String) : String × List (String × String) :=
  if text = "" ∨ pyStrip text = "" then (text, [])
  else
    match tr text dest with
    | some t => (t, [(text, dest)])
    | none => (text, [(text, dest)])

/-- `translate_data_record` (scraper.py:251-264): copy the record and
translate the six designated fields when they are non-empty. -/
def translate_data_record (tr : String → String → Option String) (record : RowData) :
    RowData :=
  { record with
    region := if record.region ≠ "" then (translate_text tr record.region "en").1
      else record.region
    municipality := if record.municipality ≠ "" then
      (translate_text tr record.municipality "en").1 else record.municipality
    division := if record.division ≠ "" then
      (translate_text tr record.division "en").1 else record.division
    post := if record.post ≠ "" then (translate_text tr record.post "en").1
      else record.post
    units := if record.units ≠ "" then (translate_text tr record.units "en").1
      else record.units
    month_name := if record.month_name ≠ "" then
      (translate_text tr record.month_name "en").1 else record.month_name }

/-! ### Injectivity of decimal rendering (for row-id uniqueness) -/

/-- Numeric value of a decimal digit character. -/
def digitVal (c : Char) : Nat := c.toNat - '0'.toNat

/-- Value of a most-significant-first decimal digit string. -/
def valD (l : List Char) : Nat := l.foldl (fun a c => 10 * a + digitVal c) 0

/-! ### Record store and persistence (`__init__`, `append_and_save_data`) -/

/-- `load_existing_data` (scraper.py:51-60): the parsed file contents, or
`[]` when the file is absent or unreadable (`none`). -/
def load_existing_data {α : Type _} (file : Option (List α)) : List α :=
  file.getD []

/-- The two consolidated in-memory collections owned by the engine
(`self.original_data`, `self.translated_data`). -/
structure Store where
  original_data : List RowData
  translated_data : List RowData
  deriving DecidableEq

/-- Zero-padded month used in individual file names (`{month:02d}`). -/
def pad2 (n : Nat) : String := if n < 10 then "0" ++ toString n else toString n

/-- `save_individual_files` (scraper.py:266-290): the pair of per-leaf file
paths written (Spanish then English); nothing is written for an empty batch. -/
def save_individual_files (data : List RowData)
    (outputDir fare region muni divi year : String) (month : Nat) : List String :=
  if data = [] then []
  else
    let base := outputDir ++ "/extraction/" ++ create_safe_filename region ++ "/" ++
      create_safe_filename muni ++ "/" ++ fare ++ "_" ++ create_safe_filename divi ++
      "_" ++ year ++ "_" ++ pad2 month
    [base ++ "_spanish.json", base ++ "_english.json"]

/-- `append_and_save_data` (scraper.py:292-309): no-op on an empty batch;
otherwise write the individual files, extend both consolidated collections
(translating the new records for the English one) and rewrite both
consolidated files.  Returns the new store and the list of files written. -/
def append_and_save_data (tr : String → String → Option String) (outputDir : String)
    (st : Store) (new_data : List RowData)
    (fare region muni divi year : String) (month : Nat) : Store × List String :=
  if new_data = [] then (st, [])
  else
    let ind := save_individual_files new_data outputDir fare region muni divi year month
    let original := st.original_data ++ new_data
    let translated := st.translated_data ++ new_data.map (translate_data_record tr)
    (⟨original, translated⟩,
      ind ++ [outputDir ++ "/cfe_tariff_data_spanish.json",
        outputDir ++ "/cfe_tariff_data_english.json"])

/-! ### Traversal engine (`scrape_all_data`) -/

/-- One entry of `failed_extractions` (`track_failure`, scraper.py:93-108). -/
structure FailureRecord where
  timestamp : String
  fare_type : String
  region : String
  municipality : String
  division : String
  year : String
  month : Nat
  error : String
  deriving DecidableEq

/-- One observable driver action: a `select_dropdown_option` call on a given
control with a given value, and whether it succeeded. -/
inductive Ev where
  | select (dropdownId : String) (value : String) (ok : Bool)
  deriving DecidableEq

def yearDd : String := "ContentPlaceHolder1_Fecha_ddAnio"
def monthDd : String := "ContentPlaceHolder1_MesVerano3_ddMesConsulta"
def regionDd : String := "ContentPlaceHolder1_EdoMpoDiv_ddEstado"
def muniDd : String := "ContentPlaceHolder1_EdoMpoDiv_ddMunicipio"
def divDd : String := "ContentPlaceHolder1_EdoMpoDiv_ddDivision"

/-- The remote form, embedded as one oracle per driver call site, indexed by
the logical coordinates at which the call happens.  Dropdown contents are the
raw option lists (`none` = control not found / timeout); selections report
success.  `tr` is the translation oracle and `now` the clock reading. -/
structure Env where
  selYear : String → String → Nat → Bool
  selMonth : String → String → Nat → Bool
  regionOpts : String → String → Nat → Option (List Opt)
  selRegion : String → String → Nat → String → Bool
  muniOpts : String → String → Nat → String → Option (List Opt)
  selMuni : String → String → Nat → String → String → Bool
  divOpts : String → String → Nat → String → String → Option (List Opt)
  selDiv : String → String → Nat → String → String → String → Bool
  table : String → String → Nat → String → String → String → Option (List HtmlRow)
  reselMuni : String → String → Nat → String → String → String → Bool
  reselRegion : String → String → Nat → String → String → Bool
  tr : String → String → Option String
  now : String

/-- The engine's mutable state: the record store, the failure log, and the
trace of dropdown selections performed so far. -/
structure St where
  store : Store
  failed_extractions : List FailureRecord
  events : List Ev
  deriving DecidableEq

/-- `track_failure` (scraper.py:93-108): append one failure record. -/
def track_failure (env : Env) (st : St)
    (fare region muni divi year : String) (month : Nat) (error : String) : St :=
  { st with failed_extractions := st.failed_extractions ++
      [⟨env.now, fare, region, muni, divi, year, month, error⟩] }

/-- Record one `select_dropdown_option` call in the trace. -/
def logSelect (st : St) (dd v : String) (ok : Bool) : St :=
  { st with events := st.events ++ [.select dd v ok] }

/-- Division-level loop body (scraper.py:386-416): select the division; on
failure record it and move on (the `continue` skips the municipality
reselect); on success extract, either append the batch or record a
"No table data extracted" failure, and then reselect the municipality. -/
def processDivision (env : Env) (outputDir fare year : String) (month : Nat)
    (regionV regionN muniV muniN : String) (st : St) (d : Opt) : St :=
  if env.selDiv fare year month regionV muniV d.value then
    let st := logSelect st divDd d.value true
    let tdata := extract_table_data_simplified fare regionN muniN d.text year month
      env.now (env.table fare year month regionV muniV d.value)
    let st :=
      if tdata = [] then
        track_failure env st fare regionN muniN d.text year month
          "No table data extracted"
      else
        { st with store := (append_and_save_data env.tr outputDir st.store tdata
            fare regionN muniN d.text year month).1 }
    logSelect st muniDd muniV (env.reselMuni fare year month regionV muniV d.value)
  else
    track_failure env (logSelect st divDd d.value false) fare regionN muniN d.text
      year month "Failed to select division"

/-- Municipality-level loop body (scraper.py:367-424): select the
municipality; on failure record it and move on; enumerate divisions; an empty
division list is recorded as "No divisions available" (and the `continue`
skips the region reselect); otherwise walk the divisions and reselect the
region. -/
def processMunicipality (env : Env) (outputDir fare year : String) (month : Nat)
    (regionV regionN : String) (st : St) (m : Opt) : St :=
  if env.selMuni fare year month regionV m.value then
    let st := logSelect st muniDd m.value true
    let divisions := get_available_options (env.divOpts fare year month regionV m.value)
    if divisions = [] then
      track_failure env st fare regionN m.text "N/A" year month "No divisions available"
    else
      let st := divisions.foldl
        (processDivision env outputDir fare year month regionV regionN m.value m.text) st
      logSelect st regionDd regionV (env.reselRegion fare year month regionV m.value)
  else
    track_failure env (logSelect st muniDd m.value false) fare regionN m.text "N/A"
      year month "Failed to select municipality"

/-- Region-level loop body (scraper.py:352-429): select the region; on
failure record it and move on; otherwise enumerate and walk municipalities. -/
def processRegion (env : Env) (outputDir fare year : String) (month : Nat)
    (st : St) (r : Opt) : St :=
  if env.selRegion fare year month r.value then
    let st := logSelect st regionDd r.value true
    let municipalities := get_available_options (env.muniOpts fare year month r.value)
    municipalities.foldl
      (processMunicipality env outputDir fare year month r.value r.text) st
  else
    track_failure env (logSelect st regionDd r.value false) fare r.text "N/A" "N/A"
      year month "Failed to select region"

/-- Period-level body (scraper.py:335-429): navigate, select year and month;
either selection failure skips the period with no failure record; then
enumerate and walk regions. -/
def processPeriod (env : Env) (outputDir fare : String) (st : St)
    (p : String × Nat) : St :=
  let year := p.1
  let month := p.2
  if env.selYear fare year month then
    let st := logSelect st yearDd year true
    if env.selMonth fare year month then
      let st := logSelect st monthDd (toString month) true
      let regions := get_available_options (env.regionOpts fare year month)
      regions.foldl (processRegion env outputDir fare year month) st
    else
      logSelect st monthDd (toString month) false
  else
    logSelect st yearDd year false

/-- The hardcoded period window (scraper.py:314-323): 2024-09..12, then
2025-01..12. -/
def periods : List (String × Nat) :=
  (List.range' 9 4).map (fun m => ("2024", m)) ++
    (List.range' 1 12).map (fun m => ("2025", m))

/-- The fare types in declaration order (scraper.py:21-26). -/
def fareTypes : List String := ["GDMTO", "GDMTH", "DIST", "DIT"]

/-- `scrape_all_data` (scraper.py:311-446): iterate fare types × periods. -/
def scrape_all_data (env : Env) (outputDir : String) (st : St) : St :=
  fareTypes.foldl (fun st fare => periods.foldl (processPeriod env outputDir fare) st) st

/-- Engine construction (`__init__`, scraper.py:43-49): the consolidated
collections and the failure log are loaded from their files once; the event
trace starts empty. -/
def initEngine (origFile transFile : Option (List RowData))
    (failFile : Option (List FailureRecord)) : St :=
  ⟨⟨load_existing_data origFile, load_existing_data transFile⟩,
    load_existing_data failFile, []⟩

/-- `t` extends `s`: both consolidated collections of `t` are obtained from
those of `s` by appending (never truncating or reordering). -/
def StoreExt (s t : St) : Prop :=
  (∃ u, t.store.original_data = s.store.original_data ++ u) ∧
  (∃ u, t.store.translated_data = s.store.translated_data ++ u)

/-! ### Spec-side definitions and concrete fixtures -/

/-- The character-level meaning claimed for `create_safe_filename`: each
listed character becomes `_`, everything else is unchanged. -/
def safeChar (c : Char) : Char :=
  if c ∈ [' ', '/', '\\', ':', '*', '?', '"', '<', '>', '|', '.'] then '_' else c

/-- The option filter exactly as the claim words it (refinement comparison):
drop an option iff its value is the empty/zero sentinel or its label contains
a placeholder, and return the remaining options unchanged, in order. -/
def get_available_options_claimed (dd : Option (List Opt)) : List Opt :=
  match dd with
  | none => []
  | some opts =>
    opts.filter fun o => decide (o.value ≠ "" ∧ o.value ≠ "0" ∧
      ¬(hasSub "Seleccione".data o.text.data) ∧ ¬(hasSub "Select".data o.text.data))

/-- The amended option filter: labels are whitespace-stripped first, and
options whose stripped label is empty are also dropped. -/
def get_available_options_spec (dd : Option (List Opt)) : List Opt :=
  match dd with
  | none => []
  | some opts =>
    (opts.map fun o => Opt.mk o.value (pyStrip o.text)).filter fun o =>
      decide (o.value ≠ "" ∧ o.value ≠ "0" ∧ o.text ≠ "" ∧
        ¬(hasSub "Seleccione".data o.text.data) ∧ ¬(hasSub "Select".data o.text.data))

/-- A table cell whose visible text and text content agree. -/
def sampleCell (s : String) : Elem := ⟨s, s⟩

/-- Header + 3 data rows; data row 1 has only 2 `<td>` cells, rows 2 and 3
have 3. -/
def tableSkipFirst : List HtmlRow :=
  [⟨[sampleCell "h"], []⟩,
   ⟨[], [sampleCell "a", sampleCell "b"]⟩,
   ⟨[], [sampleCell "p1", sampleCell "u1", sampleCell "3.14"]⟩,
   ⟨[], [sampleCell "p2", sampleCell "u2", sampleCell "9.99"]⟩]

/-- Header + 3 data rows; data rows 1 and 2 have 3 `<td>` cells, row 3 has
fewer (the scenario quoted by the spec). -/
def tableSkipLast : List HtmlRow :=
  [⟨[sampleCell "h"], []⟩,
   ⟨[], [sampleCell "p1", sampleCell "u1", sampleCell "3.14"]⟩,
   ⟨[], [sampleCell "p2", sampleCell "u2", sampleCell "9.99"]⟩,
   ⟨[], [sampleCell "a", sampleCell "b"]⟩]

/-- Header + one data row whose value cell carries a thousands separator. -/
def tableComma : List HtmlRow :=
  [⟨[sampleCell "h"], []⟩,
   ⟨[], [sampleCell "p1", sampleCell "u1", sampleCell "1,234.56"]⟩]

/-- An environment in which every year selection fails. -/
def envYearFail : Env :=
  { selYear := fun _ _ _ => false
    selMonth := fun _ _ _ => true
    regionOpts := fun _ _ _ => none
    selRegion := fun _ _ _ _ => true
    muniOpts := fun _ _ _ _ => none
    selMuni := fun _ _ _ _ _ => true
    divOpts := fun _ _ _ _ _ => none
    selDiv := fun _ _ _ _ _ _ => true
    table := fun _ _ _ _ _ _ => none
    reselMuni := fun _ _ _ _ _ _ => true
    reselRegion := fun _ _ _ _ _ => true
    tr := fun _ _ => none
    now := "t" }

/-- An environment in which every year selection succeeds and every month
selection fails. -/
def envMonthFail : Env :=
  { envYearFail with
    selYear := fun _ _ _ => true
    selMonth := fun _ _ _ => false }

/-- An environment whose results tables are header-only (every selection
succeeds). -/
def envHeaderOnly : Env :=
  { envYearFail with
    selYear := fun _ _ _ => true
    table := fun _ _ _ _ _ _ => some [⟨[sampleCell "h"], []⟩] }

/-- An environment in which selecting division "d1" fails and every other
selection succeeds; tables are absent. -/
def envDivFail : Env :=
  { envYearFail with
    selYear := fun _ _ _ => true
    selDiv := fun _ _ _ _ _ dv => dv ≠ "d1" }

/-- A fresh engine state: nothing loaded, nothing recorded. -/
def st0 : St := initEngine none none none

/-- A concrete record used to witness frame properties. -/
def sampleRecord : RowData :=
  ⟨"R_M_D_2024_9_1", "R", "M", "D", "2024", 9, "SEPTIEMBRE", "t", "F", "p", "u", "1.0"⟩

/-- Replacement of one character by another, as a named function. -/
def rep1 (c r x : Char) : Char := if x = c then r else x

/-- `str.replace` with a single-character pattern is a character map. -/
theorem pyReplace_single (c r : Char) :
    ∀ l : List Char, pyReplace [c] [r] l = l.map fun x => if x = c then r else x := by
  intro l
  induction l with
  | nil => simp [pyReplace]
  | cons x xs ih =>
    rw [pyReplace]
    by_cases h : c = x
    · subst h
      simp [List.isPrefixOf, ih]
    · have hx : ¬x = c := fun hxc => h hxc.symm
      simp [List.isPrefixOf, h, hx, ih]

/-- `str.replace` deleting a single character is a filter. -/
theorem pyReplace_single_del (c : Char) :
    ∀ l : List Char, pyReplace [c] [] l = l.filter fun x => x ≠ c := by
  intro l
  induction l with
  | nil => simp [pyReplace]
  | cons x xs ih =>
    rw [pyReplace]
    by_cases h : c = x
    · subst h
      simp [List.isPrefixOf, ih]
    · have hx : ¬x = c := fun hxc => h hxc.symm
      simp [List.isPrefixOf, h, hx, ih]

theorem digitVal_digitChar (d : Nat) (h : d < 10) : digitVal (Nat.digitChar d) = d := by
  interval_cases d <;> decide

theorem valD_append (l : List Char) (c : Char) :
    valD (l ++ [c]) = 10 * valD l + digitVal c := by
  simp [valD, List.foldl_append]

theorem toDigitsCore_append (fuel n : Nat) (ds : List Char) :
    Nat.toDigitsCore 10 fuel n ds = Nat.toDigitsCore 10 fuel n [] ++ ds := by
  induction fuel generalizing n ds with
  | zero => simp [Nat.toDigitsCore]
  | succ f ih =>
    by_cases h : n / 10 = 0
    · simp [Nat.toDigitsCore, h]
    · simp only [Nat.toDigitsCore, h, if_false]
      rw [ih (n / 10) (Nat.digitChar (n % 10) :: ds),
        ih (n / 10) [Nat.digitChar (n % 10)]]
      simp

theorem valD_toDigitsCore (fuel n : Nat) (h : n < fuel) :
    valD (Nat.toDigitsCore 10 fuel n []) = n := by
  induction fuel generalizing n with
  | zero => omega
  | succ f ih =>
    by_cases h0 : n / 10 = 0
    · have hn : n < 10 := (Nat.div_eq_zero_iff (by norm_num)).1 h0
      simp only [Nat.toDigitsCore, h0, if_true, valD, List.foldl_cons,
        List.foldl_nil, Nat.mul_zero, Nat.zero_add, Nat.mod_eq_of_lt hn]
      exact digitVal_digitChar n hn
    · have h10 : 10 ≤ n := by
        by_contra hlt
        push_neg at hlt
        exact h0 ((Nat.div_eq_zero_iff (by norm_num)).2 hlt)
      simp only [Nat.toDigitsCore, h0, if_false]
      rw [toDigitsCore_append, valD_append,
        ih (n / 10) (by
          have : n / 10 < n := Nat.div_lt_self (by omega) (by norm_num)
          omega),
        digitVal_digitChar _ (Nat.mod_lt _ (by norm_num))]
      omega

theorem natRepr_inj {m n : Nat} (h : Nat.repr m = Nat.repr n) : m = n := by
  unfold Nat.repr at h
  have hd : Nat.toDigits 10 m = Nat.toDigits 10 n := List.asString_inj.mp h
  unfold Nat.toDigits at hd
  have h1 := valD_toDigitsCore (m + 1) m (by omega)
  have h2 := valD_toDigitsCore (n + 1) n (by omega)
  rw [hd] at h1
  omega

theorem strExt {a b : String} (h : a.data = b.data) : a = b := by
  cases a
  cases b
  cases h
  rfl

theorem toStringNat_inj {m n : Nat} (h : toString m = toString n) : m = n :=
  natRepr_inj h

/-- Two records built by `mkRowData` for the same leaf share their id prefix,
so equal ids force equal row indices. -/
theorem mkRowData_id_inj (fare region muni divi year : String) (month : Nat)
    (now : String) {i j : Nat} {r s : HtmlRow}
    (h : (mkRowData fare region muni divi year month now i r).id =
      (mkRowData fare region muni divi year month now j s).id) : i = j := by
  have hd := congrArg String.data h
  simp only [mkRowData, String.data_append, List.append_assoc,
    List.append_cancel_left_eq] at hd
  exact toStringNat_inj (strExt hd)

/-! ### Characterization of the extractor -/

/-- The extraction loop emits exactly the rows with at least 3 `<td>` cells,
indexed by their raw 1-based position among the data rows. -/
theorem extractLoop_eq (fare region muni divi year : String) (month : Nat)
    (now : String) :
    ∀ (rows : List HtmlRow) (i : Nat),
      extractLoop fare region muni divi year month now i rows =
        ((List.enumFrom i rows).filter fun p => decide (3 ≤ p.2.td.length)).map
          fun p => mkRowData fare region muni divi year month now p.1 p.2 := by
  intro rows
  induction rows with
  | nil => intro i; rfl
  | cons row rest ih =>
    intro i
    rw [extractLoop]
    by_cases h : 3 ≤ row.td.length
    · simp [List.enumFrom, List.filter, h, ih]
    · simp [List.enumFrom, List.filter, h, ih]

theorem mem_enumFrom_le {α : Type _} :
    ∀ (l : List α) (i : Nat) (p : Nat × α), p ∈ List.enumFrom i l → i ≤ p.1 := by
  intro l
  induction l with
  | nil => intro i p hp; simp [List.enumFrom] at hp
  | cons x xs ih =>
    intro i p hp
    simp only [List.enumFrom, List.mem_cons] at hp
    rcases hp with hp | hp
    · simp [hp]
    · have := ih (i + 1) p hp
      omega

theorem enumFrom_pairwise_lt {α : Type _} :
    ∀ (l : List α) (i : Nat),
      (List.enumFrom i l).Pairwise fun p q => p.1 < q.1 := by
  intro l
  induction l with
  | nil => intro i; simp [List.enumFrom]
  | cons x xs ih =>
    intro i
    refine List.Pairwise.cons ?_ (ih (i + 1))
    intro q hq
    have := mem_enumFrom_le xs (i + 1) q hq
    simpa using by omega

/-- All ids emitted for one leaf table are pairwise distinct. -/
theorem extract_ids_pairwise (fare region muni divi year : String) (month : Nat)
    (now : String) (table : Option (List HtmlRow)) :
    ((extract_table_data_simplified fare region muni divi year month now
      table).map (·.id)).Pairwise (· ≠ ·) := by
  match table with
  | none => simp [extract_table_data_simplified]
  | some rows =>
    simp only [extract_table_data_simplified]
    by_cases hlen : rows.length < 2
    · simp [hlen]
    · simp only [hlen, if_false]
      rw [extractLoop_eq, List.map_map, List.pairwise_map]
      have hpw :
          ((List.enumFrom 1 (rows.drop 1)).filter
            fun p => decide (3 ≤ p.2.td.length)).Pairwise fun p q => p.1 < q.1 :=
        List.Pairwise.filter _ (enumFrom_pairwise_lt _ 1)
      refine hpw.imp ?_
      intro p q hlt heq
      have := mkRowData_id_inj fare region muni divi year month now heq
      omega

/-! ### Framing lemmas for the engine state -/

@[simp] theorem logSelect_store (st : St) (dd v : String) (ok : Bool) :
    (logSelect st dd v ok).store = st.store := rfl

@[simp] theorem logSelect_fails (st : St) (dd v : String) (ok : Bool) :
    (logSelect st dd v ok).failed_extractions = st.failed_extractions := rfl

@[simp] theorem logSelect_events (st : St) (dd v : String) (ok : Bool) :
    (logSelect st dd v ok).events = st.events ++ [.select dd v ok] := rfl

@[simp] theorem track_failure_store (env : Env) (st : St)
    (fare region muni divi year : String) (month : Nat) (error : String) :
    (track_failure env st fare region muni divi year month error).store = st.store := rfl

@[simp] theorem track_failure_fails (env : Env) (st : St)
    (fare region muni divi year : String) (month : Nat) (error : String) :
    (track_failure env st fare region muni divi year month error).failed_extractions =
      st.failed_extractions ++ [⟨env.now, fare, region, muni, divi, year, month, error⟩] :=
  rfl

@[simp] theorem track_failure_events (env : Env) (st : St)
    (fare region muni divi year : String) (month : Nat) (error : String) :
    (track_failure env st fare region muni divi year month error).events = st.events :=
  rfl

/-- Generic shape of the event trace produced by a sibling loop, given the
shape produced for each child. -/
theorem foldl_events {α : Type _} (f : St → α → St) (g : α → List Ev)
    (hf : ∀ st a, (f st a).events = st.events ++ g a) :
    ∀ (l : List α) (st : St), (l.foldl f st).events = st.events ++ l.flatMap g := by
  intro l
  induction l with
  | nil => intro st; simp
  | cons a l ih =>
    intro st
    simp only [List.foldl_cons, ih, hf, List.flatMap_cons, List.append_assoc]

/-- Generic shape of the failure log produced by a sibling loop. -/
theorem foldl_fails {α : Type _} (f : St → α → St) (g : α → List FailureRecord)
    (hf : ∀ st a, (f st a).failed_extractions = st.failed_extractions ++ g a) :
    ∀ (l : List α) (st : St),
      (l.foldl f st).failed_extractions = st.failed_extractions ++ l.flatMap g := by
  intro l
  induction l with
  | nil => intro st; simp
  | cons a l ih =>
    intro st
    simp only [List.foldl_cons, ih, hf, List.flatMap_cons, List.append_assoc]

theorem StoreExt.refl (s : St) : StoreExt s s :=
  ⟨⟨[], by simp⟩, ⟨[], by simp⟩⟩

theorem StoreExt.trans {s t u : St} (h1 : StoreExt s t) (h2 : StoreExt t u) :
    StoreExt s u := by
  obtain ⟨⟨a, ha⟩, ⟨b, hb⟩⟩ := h1
  obtain ⟨⟨c, hc⟩, ⟨d, hd⟩⟩ := h2
  exact ⟨⟨a ++ c, by simp [hc, ha]⟩, ⟨b ++ d, by simp [hd, hb]⟩⟩

theorem StoreExt.of_store_eq {s t : St} (h : t.store = s.store) : StoreExt s t :=
  ⟨⟨[], by simp [h]⟩, ⟨[], by simp [h]⟩⟩

theorem append_and_save_data_ext (tr : String → String → Option String)
    (outputDir : String) (st : Store) (new_data : List RowData)
    (fare region muni divi year : String) (month : Nat) :
    (append_and_save_data tr outputDir st new_data fare region muni divi year
      month).1.original_data = st.original_data ++
        (if new_data = [] then [] else new_data) ∧
    (append_and_save_data tr outputDir st new_data fare region muni divi year
      month).1.translated_data = st.translated_data ++
        (if new_data = [] then [] else new_data.map (translate_data_record tr)) := by
  by_cases h : new_data = [] <;> simp [append_and_save_data, h]

theorem foldl_storeExt {α : Type _} (f : St → α → St)
    (hf : ∀ st a, StoreExt st (f st a)) :
    ∀ (l : List α) (st : St), StoreExt st (l.foldl f st) := by
  intro l
  induction l with
  | nil => intro st; exact StoreExt.refl st
  | cons a l ih =>
    intro st
    exact (hf st a).trans (ih (f st a))

/-- The store after the division body: the (possibly empty) extracted batch
is pushed through `append_and_save_data` when the division was selected. -/
theorem processDivision_store (env : Env) (outputDir fare year : String)
    (month : Nat) (regionV regionN muniV muniN : String) (st : St) (d : Opt) :
    (processDivision env outputDir fare year month regionV regionN muniV muniN
      st d).store =
      if env.selDiv fare year month regionV muniV d.value then
        (append_and_save_data env.tr outputDir st.store
          (extract_table_data_simplified fare regionN muniN d.text year month
            env.now (env.table fare year month regionV muniV d.value))
          fare regionN muniN d.text year month).1
      else st.store := by
  by_cases h : env.selDiv fare year month regionV muniV d.value
  · by_cases h2 : extract_table_data_simplified fare regionN muniN d.text year
      month env.now (env.table fare year month regionV muniV d.value) = []
    · simp [processDivision, h, h2, append_and_save_data]
    · simp [processDivision, h, h2]
  · simp [processDivision, h]

theorem processDivision_storeExt (env : Env) (outputDir fare year : String)
    (month : Nat) (regionV regionN muniV muniN : String) (st : St) (d : Opt) :
    StoreExt st (processDivision env outputDir fare year month regionV regionN
      muniV muniN st d) := by
  by_cases h : env.selDiv fare year month regionV muniV d.value
  · have hs : (processDivision env outputDir fare year month regionV regionN
        muniV muniN st d).store =
        (append_and_save_data env.tr outputDir st.store
          (extract_table_data_simplified fare regionN muniN d.text year month
            env.now (env.table fare year month regionV muniV d.value))
          fare regionN muniN d.text year month).1 := by
      rw [processDivision_store env outputDir fare year month regionV regionN
        muniV muniN st d, if_pos h]
    have ha := append_and_save_data_ext env.tr outputDir st.store
      (extract_table_data_simplified fare regionN muniN d.text year month
        env.now (env.table fare year month regionV muniV d.value))
      fare regionN muniN d.text year month
    refine ⟨⟨if extract_table_data_simplified fare regionN muniN d.text year
        month env.now (env.table fare year month regionV muniV d.value) = []
      then [] else extract_table_data_simplified fare regionN muniN d.text year
        month env.now (env.table fare year month regionV muniV d.value), ?_⟩,
      ⟨if extract_table_data_simplified fare regionN muniN d.text year month
        env.now (env.table fare year month regionV muniV d.value) = []
      then [] else (extract_table_data_simplified fare regionN muniN d.text year
        month env.now (env.table fare year month regionV muniV
          d.value)).map (translate_data_record env.tr), ?_⟩⟩
    · rw [hs]; exact ha.1
    · rw [hs]; exact ha.2
  · refine StoreExt.of_store_eq ?_
    rw [processDivision_store env outputDir fare year month regionV regionN
      muniV muniN st d, if_neg h]

theorem processMunicipality_storeExt (env : Env) (outputDir fare year : String)
    (month : Nat) (regionV regionN : String) (st : St) (m : Opt) :
    StoreExt st (processMunicipality env outputDir fare year month regionV
      regionN st m) := by
  by_cases h : env.selMuni fare year month regionV m.value
  · by_cases h2 : get_available_options (env.divOpts fare year month regionV
      m.value) = []
    · exact StoreExt.of_store_eq (by simp [processMunicipality, h, h2])
    · have hf := foldl_storeExt _
        (fun st d => processDivision_storeExt env outputDir fare year month
          regionV regionN m.value m.text st d)
        (get_available_options (env.divOpts fare year month regionV m.value))
        (logSelect st muniDd m.value true)
      refine StoreExt.trans (t := logSelect st muniDd m.value true)
        (StoreExt.of_store_eq rfl) (hf.trans (StoreExt.of_store_eq ?_))
      simp [processMunicipality, h, h2]
  · exact StoreExt.of_store_eq (by simp [processMunicipality, h])

theorem processRegion_storeExt (env : Env) (outputDir fare year : String)
    (month : Nat) (st : St) (r : Opt) :
    StoreExt st (processRegion env outputDir fare year month st r) := by
  by_cases h : env.selRegion fare year month r.value
  · have hf := foldl_storeExt _
      (fun st m => processMunicipality_storeExt env outputDir fare year month
        r.value r.text st m)
      (get_available_options (env.muniOpts fare year month r.value))
      (logSelect st regionDd r.value true)
    refine StoreExt.trans (t := logSelect st regionDd r.value true)
      (StoreExt.of_store_eq rfl) (hf.trans (StoreExt.of_store_eq ?_))
    simp [processRegion, h]
  · exact StoreExt.of_store_eq (by simp [processRegion, h])

theorem processPeriod_storeExt (env : Env) (outputDir fare : String) (st : St)
    (p : String × Nat) :
    StoreExt st (processPeriod env outputDir fare st p) := by
  by_cases h : env.selYear fare p.1 p.2
  · by_cases h2 : env.selMonth fare p.1 p.2
    · have hf := foldl_storeExt _
        (fun st r => processRegion_storeExt env outputDir fare p.1 p.2 st r)
        (get_available_options (env.regionOpts fare p.1 p.2))
        (logSelect (logSelect st yearDd p.1 true) monthDd (toString p.2) true)
      refine StoreExt.trans (t := logSelect (logSelect st yearDd p.1 true)
        monthDd (toString p.2) true)
        (StoreExt.of_store_eq rfl) (hf.trans (StoreExt.of_store_eq ?_))
      simp [processPeriod, h, h2]
    · exact StoreExt.of_store_eq (by simp [processPeriod, h, h2])
  · exact StoreExt.of_store_eq (by simp [processPeriod, h])

theorem scrape_all_data_storeExt (env : Env) (outputDir : String) (st : St) :
    StoreExt st (scrape_all_data env outputDir st) := by
  rw [scrape_all_data]
  exact foldl_storeExt _
    (fun st fare => foldl_storeExt _
      (fun st p => processPeriod_storeExt env outputDir fare st p) _ _) _ _

/-! ### Event/failure projections of the traversal levels -/

/-- Trace contribution of one division child: the selection attempt, then —
only when the selection succeeded — the municipality reselect; the
`continue` on selection failure skips the reselect. -/
theorem processDivision_events (env : Env) (outputDir fare year : String)
    (month : Nat) (regionV regionN muniV muniN : String) (st : St) (d : Opt) :
    (processDivision env outputDir fare year month regionV regionN muniV muniN
      st d).events =
      st.events ++ Ev.select divDd d.value
          (env.selDiv fare year month regionV muniV d.value) ::
        (if env.selDiv fare year month regionV muniV d.value then
          [Ev.select muniDd muniV (env.reselMuni fare year month regionV muniV d.value)]
        else []) := by
  by_cases h : env.selDiv fare year month regionV muniV d.value
  · by_cases h2 : extract_table_data_simplified fare regionN muniN d.text year
      month env.now (env.table fare year month regionV muniV d.value) = [] <;>
      simp [processDivision, h, h2]
  · simp [processDivision, h]

/-- Failure contribution of one division child. -/
theorem processDivision_fails (env : Env) (outputDir fare year : String)
    (month : Nat) (regionV regionN muniV muniN : String) (st : St) (d : Opt) :
    (processDivision env outputDir fare year month regionV regionN muniV muniN
      st d).failed_extractions =
      st.failed_extractions ++
        (if env.selDiv fare year month regionV muniV d.value then
          (if extract_table_data_simplified fare regionN muniN d.text year month
              env.now (env.table fare year month regionV muniV d.value) = [] then
            [⟨env.now, fare, regionN, muniN, d.text, year, month,
              "No table data extracted"⟩]
          else [])
        else
          [⟨env.now, fare, regionN, muniN, d.text, year, month,
            "Failed to select division"⟩]) := by
  by_cases h : env.selDiv fare year month regionV muniV d.value
  · by_cases h2 : extract_table_data_simplified fare regionN muniN d.text year
      month env.now (env.table fare year month regionV muniV d.value) = [] <;>
      simp [processDivision, h, h2]
  · simp [processDivision, h]

/-- Trace contribution of one municipality child: the selection attempt,
then — only when the selection succeeded and the division list is
non-empty — the division walk followed by the region reselect; the
`continue` paths (selection failure, no divisions) skip the reselect. -/
theorem processMunicipality_events (env : Env) (outputDir fare year : String)
    (month : Nat) (regionV regionN : String) (st : St) (m : Opt) :
    (processMunicipality env outputDir fare year month regionV regionN st
      m).events =
      st.events ++ Ev.select muniDd m.value
          (env.selMuni fare year month regionV m.value) ::
        (if env.selMuni fare year month regionV m.value then
          (if get_available_options (env.divOpts fare year month regionV m.value)
              = [] then []
          else
            ((get_available_options (env.divOpts fare year month regionV
                m.value)).flatMap fun d =>
              Ev.select divDd d.value
                  (env.selDiv fare year month regionV m.value d.value) ::
                (if env.selDiv fare year month regionV m.value d.value then
                  [Ev.select muniDd m.value
                    (env.reselMuni fare year month regionV m.value d.value)]
                else [])) ++
              [Ev.select regionDd regionV
                (env.reselRegion fare year month regionV m.value)])
        else []) := by
  by_cases h : env.selMuni fare year month regionV m.value
  · by_cases h2 : get_available_options (env.divOpts fare year month regionV
      m.value) = []
    · simp [processMunicipality, h, h2]
    · have hfold := foldl_events
        (processDivision env outputDir fare year month regionV regionN m.value m.text)
        (fun d => Ev.select divDd d.value
            (env.selDiv fare year month regionV m.value d.value) ::
          (if env.selDiv fare year month regionV m.value d.value then
            [Ev.select muniDd m.value
              (env.reselMuni fare year month regionV m.value d.value)]
          else []))
        (fun st d => processDivision_events env outputDir fare year month
          regionV regionN m.value m.text st d)
        (get_available_options (env.divOpts fare year month regionV m.value))
        (logSelect st muniDd m.value true)
      simp [processMunicipality, h, h2, hfold]
  · simp [processMunicipality, h]

/-! ### Normalization lemmas for the string transformations -/

theorem pyReplaceS_comma (s : String) :
    pyReplaceS s "," "" = ⟨s.data.filter (· ≠ ',')⟩ := by
  simp only [pyReplaceS, show ("," : String).data = [','] from rfl,
    show ("" : String).data = [] from rfl, pyReplace_single_del]

theorem pyReplace_one (c r : Char) :
    ∀ l : List Char, pyReplace [c] [r] l = l.map (rep1 c r) := by
  intro l
  induction l with
  | nil => simp [pyReplace]
  | cons x xs ih =>
    rw [pyReplace]
    by_cases h : c = x
    · subst h
      simp [List.isPrefixOf, ih, rep1]
    · have hx : ¬x = c := fun hxc => h hxc.symm
      simp [List.isPrefixOf, h, hx, ih, rep1]

theorem safeChar_chain (c : Char) :
    rep1 '.' '_' (rep1 '|' '_' (rep1 '>' '_' (rep1 '<' '_' (rep1 '"' '_'
      (rep1 '?' '_' (rep1 '*' '_' (rep1 ':' '_' (rep1 '\\' '_' (rep1 '/' '_'
      (rep1 ' ' '_' c)))))))))) = safeChar c := by
  by_cases h1 : c = ' '
  · subst h1; rfl
  by_cases h2 : c = '/'
  · subst h2; rfl
  by_cases h3 : c = '\\'
  · subst h3; rfl
  by_cases h4 : c = ':'
  · subst h4; rfl
  by_cases h5 : c = '*'
  · subst h5; rfl
  by_cases h6 : c = '?'
  · subst h6; rfl
  by_cases h7 : c = '"'
  · subst h7; rfl
  by_cases h8 : c = '<'
  · subst h8; rfl
  by_cases h9 : c = '>'
  · subst h9; rfl
  by_cases h10 : c = '|'
  · subst h10; rfl
  by_cases h11 : c = '.'
  · subst h11; rfl
  have hmem : c ∉ ([' ', '/', '\\', ':', '*', '?', '"', '<', '>', '|', '.'] : List Char) := by
    simp [h1, h2, h3, h4, h5, h6, h7, h8, h9, h10, h11]
  have e1 : rep1 ' ' '_' c = c := if_neg h1
  rw [e1]
  have e2 : rep1 '/' '_' c = c := if_neg h2
  rw [e2]
  have e3 : rep1 '\\' '_' c = c := if_neg h3
  rw [e3]
  have e4 : rep1 ':' '_' c = c := if_neg h4
  rw [e4]
  have e5 : rep1 '*' '_' c = c := if_neg h5
  rw [e5]
  have e6 : rep1 '?' '_' c = c := if_neg h6
  rw [e6]
  have e7 : rep1 '"' '_' c = c := if_neg h7
  rw [e7]
  have e8 : rep1 '<' '_' c = c := if_neg h8
  rw [e8]
  have e9 : rep1 '>' '_' c = c := if_neg h9
  rw [e9]
  have e10 : rep1 '|' '_' c = c := if_neg h10
  rw [e10]
  have e11 : rep1 '.' '_' c = c := if_neg h11
  rw [e11]
  unfold safeChar
  rw [if_neg hmem]

theorem map_chain11 (f1 f2 f3 f4 f5 f6 f7 f8 f9 f10 f11 g : Char → Char)
    (h : ∀ c, f11 (f10 (f9 (f8 (f7 (f6 (f5 (f4 (f3 (f2 (f1 c)))))))))) = g c) :
    ∀ l : List Char,
      List.map f11 (List.map f10 (List.map f9 (List.map f8 (List.map f7
        (List.map f6 (List.map f5 (List.map f4 (List.map f3 (List.map f2
        (List.map f1 l)))))))))) = List.map g l := by
  intro l
  induction l with
  | nil => rfl
  | cons x xs ih =>
    rw [List.map_cons, List.map_cons, List.map_cons, List.map_cons, List.map_cons,
      List.map_cons, List.map_cons, List.map_cons, List.map_cons, List.map_cons,
      List.map_cons, List.map_cons]
    rw [h x, ih]

theorem create_safe_filename_data (s : String) :
    (create_safe_filename s).data =
      pyReplace ['.'] ['_'] (pyReplace ['|'] ['_'] (pyReplace ['>'] ['_']
        (pyReplace ['<'] ['_'] (pyReplace ['"'] ['_'] (pyReplace ['?'] ['_']
        (pyReplace ['*'] ['_'] (pyReplace [':'] ['_'] (pyReplace ['\\'] ['_']
        (pyReplace ['/'] ['_'] (pyReplace [' '] ['_'] s.data)))))))))) := rfl

theorem create_safe_filename_eq (s : String) :
    create_safe_filename s = ⟨s.data.map safeChar⟩ := by
  apply strExt
  rw [create_safe_filename_data]
  rw [pyReplace_one ' ' '_', pyReplace_one '/' '_', pyReplace_one '\\' '_',
    pyReplace_one ':' '_', pyReplace_one '*' '_', pyReplace_one '?' '_',
    pyReplace_one '"' '_', pyReplace_one '<' '_', pyReplace_one '>' '_',
    pyReplace_one '|' '_', pyReplace_one '.' '_']
  exact map_chain11 _ _ _ _ _ _ _ _ _ _ _ safeChar safeChar_chain s.data

theorem get_available_options_eq_spec (dd : Option (List Opt)) :
    get_available_options dd = get_available_options_spec dd := by
  cases dd with
  | none => rfl
  | some opts =>
    show opts.filterMap _ = (opts.map _).filter _
    induction opts with
    | nil => rfl
    | cons o rest ih =>
      rw [List.filterMap_cons, List.map_cons, List.filter_cons]
      by_cases h : o.value ≠ "" ∧ o.value ≠ "0" ∧ pyStrip o.text ≠ "" ∧
          ¬(hasSub "Seleccione".data (pyStrip o.text).data) ∧
          ¬(hasSub "Select".data (pyStrip o.text).data)
      · simp only [h, if_true, ih]
        simp [h]
      · simp only [h, if_false, ih]
        simp [h]

/-! ### Claims -/

/-- C1 counterexample: row ids are NOT numbered by the 1-based index over the
emitted rows.  For a table whose first data row is deficient (2 `<td>` cells)
and whose second and third data rows are complete, the two emitted records
are numbered 2 and 3 — the raw data-row positions — not 1 and 2 as the claim
requires. -/
theorem C1_counterexample :
    (extract_table_data_simplified "F" "R" "M" "D" "2024" 9 "t"
      (some tableSkipFirst)).map (·.id) = ["R_M_D_2024_9_2", "R_M_D_2024_9_3"] ∧
    (extract_table_data_simplified "F" "R" "M" "D" "2024" 9 "t"
      (some tableSkipFirst)).map (·.id) ≠ ["R_M_D_2024_9_1", "R_M_D_2024_9_2"] := by
  decide

/-- C1 (amended): each emitted record's trailing rowIndex is the raw 1-based
position of its row among the data rows (rows after the header), so skipped
deficient rows leave gaps; ids are formed as
`region_municipality_division_year_month_rowIndex`, all ids within a batch
are pairwise distinct, and in the spec's example (data rows 1 and 2 complete,
row 3 deficient) exactly two records numbered 1 and 2 are emitted. -/
theorem C1_row_ids (fare region muni divi year : String) (month : Nat)
    (now : String) (rows : List HtmlRow) :
    extract_table_data_simplified fare region muni divi year month now (some rows) =
      (if rows.length < 2 then []
       else ((List.enumFrom 1 (rows.drop 1)).filter
          fun p => decide (3 ≤ p.2.td.length)).map
         fun p => mkRowData fare region muni divi year month now p.1 p.2) ∧
    ((extract_table_data_simplified fare region muni divi year month now
      (some rows)).map (·.id)).Pairwise (· ≠ ·) ∧
    (extract_table_data_simplified "F" "R" "M" "D" "2024" 9 "t"
      (some tableSkipLast)).map (·.id) = ["R_M_D_2024_9_1", "R_M_D_2024_9_2"] := by
  refine ⟨?_, extract_ids_pairwise fare region muni divi year month now (some rows),
    by decide⟩
  by_cases hlen : rows.length < 2
  · simp [extract_table_data_simplified, hlen]
  · simp [extract_table_data_simplified, hlen, extractLoop_eq]

/-- C2 counterexample: a failed *period-level* selection produces no
FailureRecord.  Both with a failing year selection and with a failing month
selection, the engine performs the failed select (visible in the trace) yet
the failure log stays empty, contradicting "no level's selection failure is
skipped silently". -/
theorem C2_counterexample :
    envYearFail.selYear "GDMTO" "2024" 9 = false ∧
    (processPeriod envYearFail "o" "GDMTO" st0 ("2024", 9)).failed_extractions = [] ∧
    (processPeriod envYearFail "o" "GDMTO" st0 ("2024", 9)).events =
      [.select yearDd "2024" false] ∧
    envMonthFail.selMonth "GDMTO" "2024" 9 = false ∧
    (processPeriod envMonthFail "o" "GDMTO" st0 ("2024", 9)).failed_extractions = [] ∧
    (processPeriod envMonthFail "o" "GDMTO" st0 ("2024", 9)).events =
      [.select yearDd "2024" true, .select monthDd "9" false] := by
  decide

/-- C2 (amended): at the region, municipality and division levels a selection
failure records exactly one FailureRecord scoped to the current partial
context with deeper levels "N/A", and the engine moves on without descending
(store unchanged, no deeper selects); at the period level (year/month) a
selection failure is skipped silently — the period is abandoned with no
FailureRecord. -/
theorem C2_selection_failures (env : Env) (outputDir fare year : String)
    (month : Nat) (regionV regionN muniV muniN : String) (st : St) :
    (∀ r : Opt, env.selRegion fare year month r.value = false →
      processRegion env outputDir fare year month st r =
        { st with
          failed_extractions := st.failed_extractions ++
            [⟨env.now, fare, r.text, "N/A", "N/A", year, month,
              "Failed to select region"⟩],
          events := st.events ++ [.select regionDd r.value false] }) ∧
    (∀ m : Opt, env.selMuni fare year month regionV m.value = false →
      processMunicipality env outputDir fare year month regionV regionN st m =
        { st with
          failed_extractions := st.failed_extractions ++
            [⟨env.now, fare, regionN, m.text, "N/A", year, month,
              "Failed to select municipality"⟩],
          events := st.events ++ [.select muniDd m.value false] }) ∧
    (∀ d : Opt, env.selDiv fare year month regionV muniV d.value = false →
      processDivision env outputDir fare year month regionV regionN muniV muniN
        st d =
        { st with
          failed_extractions := st.failed_extractions ++
            [⟨env.now, fare, regionN, muniN, d.text, year, month,
              "Failed to select division"⟩],
          events := st.events ++ [.select divDd d.value false] }) ∧
    (env.selYear fare year month = false →
      processPeriod env outputDir fare st (year, month) =
        { st with events := st.events ++ [.select yearDd year false] }) ∧
    (env.selYear fare year month = true → env.selMonth fare year month = false →
      processPeriod env outputDir fare st (year, month) =
        { st with events := st.events ++ [.select yearDd year true,
          .select monthDd (toString month) false] }) := by
  refine ⟨fun r h => ?_, fun m h => ?_, fun d h => ?_, fun h => ?_, fun h1 h2 => ?_⟩
  · simp [processRegion, h, track_failure, logSelect]
  · simp [processMunicipality, h, track_failure, logSelect]
  · simp [processDivision, h, track_failure, logSelect]
  · simp [processPeriod, h, logSelect]
  · simp [processPeriod, h1, h2, logSelect]

/-- Witness for C2_selection_failures at concrete environments: a failing
year selection and a failing month selection. -/
theorem C2_selection_failures_witness :
    processPeriod envYearFail "o" "GDMTO" st0 ("2024", 9) =
      { st0 with events := st0.events ++ [.select yearDd "2024" false] } ∧
    processPeriod envMonthFail "o" "GDMTO" st0 ("2024", 9) =
      { st0 with events := st0.events ++ [.select yearDd "2024" true,
        .select monthDd (toString 9) false] } :=
  ⟨(C2_selection_failures envYearFail "o" "GDMTO" "2024" 9 "rv" "R" "mv" "M"
      st0).2.2.2.1 rfl,
   (C2_selection_failures envMonthFail "o" "GDMTO" "2024" 9 "rv" "R" "mv" "M"
      st0).2.2.2.2 rfl rfl⟩

/-- C3 counterexample: the failure reason recorded for an empty extraction is
the string "No table data extracted", not "no data extracted" as the claim
states. -/
theorem C3_counterexample :
    (processDivision envHeaderOnly "o" "F" "2024" 9 "rv" "R" "mv" "M" st0
      ⟨"dv", "D"⟩).failed_extractions.map (·.error) = ["No table data extracted"] ∧
    ("No table data extracted" : String) ≠ "no data extracted" := by
  decide

/-- C3 (amended): extraction returns no rows when the table is absent (or an
exception escapes) or has fewer than two rows; and when the division was
selected but extraction yields zero rows, the engine records exactly one
FailureRecord for that leaf with reason "No table data extracted" and appends
nothing to the store — an empty table is never a silent success. -/
theorem C3_empty_extraction (fare region muni divi year : String) (month : Nat)
    (now : String) (rows : List HtmlRow) (env : Env) (outputDir : String)
    (regionV regionN muniV muniN : String) (st : St) (d : Opt) :
    extract_table_data_simplified fare region muni divi year month now none = [] ∧
    (rows.length < 2 →
      extract_table_data_simplified fare region muni divi year month now
        (some rows) = []) ∧
    (env.selDiv fare year month regionV muniV d.value = true →
      extract_table_data_simplified fare regionN muniN d.text year month env.now
        (env.table fare year month regionV muniV d.value) = [] →
      processDivision env outputDir fare year month regionV regionN muniV muniN
        st d =
        { st with
          failed_extractions := st.failed_extractions ++
            [⟨env.now, fare, regionN, muniN, d.text, year, month,
              "No table data extracted"⟩],
          events := st.events ++ [.select divDd d.value true,
            .select muniDd muniV
              (env.reselMuni fare year month regionV muniV d.value)] }) := by
  refine ⟨rfl, fun h => ?_, fun h1 h2 => ?_⟩
  · simp [extract_table_data_simplified, h]
  · simp [processDivision, h1, h2, track_failure, logSelect]

/-- Witness for C3_empty_extraction at a concrete environment with a
header-only table. -/
theorem C3_empty_extraction_witness :
    extract_table_data_simplified "F" "R" "M" "D" "2024" 9 "t"
      (some [⟨[sampleCell "h"], []⟩]) = [] ∧
    processDivision envHeaderOnly "o" "F" "2024" 9 "rv" "R" "mv" "M" st0
      ⟨"dv", "D"⟩ =
      { st0 with
        failed_extractions := st0.failed_extractions ++
          [⟨"t", "F", "R", "M", "D", "2024", 9, "No table data extracted"⟩],
        events := st0.events ++ [.select divDd "dv" true,
          .select muniDd "mv" true] } :=
  ⟨(C3_empty_extraction "F" "R" "M" "D" "2024" 9 "t" [⟨[sampleCell "h"], []⟩]
      envHeaderOnly "o" "rv" "R" "mv" "M" st0 ⟨"dv", "D"⟩).2.1 (by decide),
   (C3_empty_extraction "F" "R" "M" "D" "2024" 9 "t" [⟨[sampleCell "h"], []⟩]
      envHeaderOnly "o" "rv" "R" "mv" "M" st0 ⟨"dv", "D"⟩).2.2 rfl (by decide)⟩

/-- C4 counterexample: when selecting division "d1" fails, the engine
advances directly to sibling "d2" without reselecting the parent
municipality — the trace shows the two division selects back to back,
refuting "including the case where selecting the child itself failed". -/
theorem C4_counterexample :
    ([⟨"d1", "D1"⟩, ⟨"d2", "D2"⟩].foldl
      (processDivision envDivFail "o" "F" "2024" 9 "rv" "R" "mv" "M") st0).events =
      [.select divDd "d1" false, .select divDd "d2" true,
        .select muniDd "mv" true] ∧
    ([⟨"d1", "D1"⟩, ⟨"d2", "D2"⟩].foldl
      (processDivision envDivFail "o" "F" "2024" 9 "rv" "R" "mv" "M") st0).events ≠
      [.select divDd "d1" false, .select muniDd "mv" true,
        .select divDd "d2" true, .select muniDd "mv" true] := by
  decide

/-- C4 (amended): the parent reselect happens exactly for division children
whose selection succeeded, and for municipality children whose selection
succeeded and whose division list was non-empty; children abandoned by a
selection failure (or an empty division list) are skipped without the
reselect. -/
theorem C4_reselect_rule (env : Env) (outputDir fare year : String) (month : Nat)
    (regionV regionN : String) (muniV muniN : String) (st : St) :
    (∀ ds : List Opt,
      (ds.foldl (processDivision env outputDir fare year month regionV regionN
        muniV muniN) st).events =
        st.events ++ ds.flatMap fun d =>
          Ev.select divDd d.value
              (env.selDiv fare year month regionV muniV d.value) ::
            (if env.selDiv fare year month regionV muniV d.value then
              [Ev.select muniDd muniV
                (env.reselMuni fare year month regionV muniV d.value)]
            else [])) ∧
    (∀ ms : List Opt,
      (ms.foldl (processMunicipality env outputDir fare year month regionV
        regionN) st).events =
        st.events ++ ms.flatMap fun m =>
          Ev.select muniDd m.value
              (env.selMuni fare year month regionV m.value) ::
            (if env.selMuni fare year month regionV m.value then
              (if get_available_options (env.divOpts fare year month regionV
                  m.value) = [] then []
              else
                ((get_available_options (env.divOpts fare year month regionV
                    m.value)).flatMap fun d =>
                  Ev.select divDd d.value
                      (env.selDiv fare year month regionV m.value d.value) ::
                    (if env.selDiv fare year month regionV m.value d.value then
                      [Ev.select muniDd m.value
                        (env.reselMuni fare year month regionV m.value d.value)]
                    else [])) ++
                  [Ev.select regionDd regionV
                    (env.reselRegion fare year month regionV m.value)])
            else [])) := by
  constructor
  · intro ds
    exact foldl_events _ _
      (fun st d => processDivision_events env outputDir fare year month regionV
        regionN muniV muniN st d) ds st
  · intro ms
    exact foldl_events _ _
      (fun st m => processMunicipality_events env outputDir fare year month
        regionV regionN st m) ms st

/-- C5: the consolidated collections are loaded once at construction
(`initEngine`) and within the run only ever extended by appends: after a full
scrape, the loaded contents are an unchanged prefix of each final collection,
so resuming with K pre-existing records yields a final collection of size
at least K. -/
theorem C5_consolidated_monotone (env : Env) (outputDir : String)
    (origFile transFile : Option (List RowData))
    (failFile : Option (List FailureRecord)) :
    (∃ u, (scrape_all_data env outputDir
        (initEngine origFile transFile failFile)).store.original_data =
      load_existing_data origFile ++ u) ∧
    (∃ u, (scrape_all_data env outputDir
        (initEngine origFile transFile failFile)).store.translated_data =
      load_existing_data transFile ++ u) ∧
    (load_existing_data origFile).length ≤
      (scrape_all_data env outputDir
        (initEngine origFile transFile failFile)).store.original_data.length ∧
    (load_existing_data transFile).length ≤
      (scrape_all_data env outputDir
        (initEngine origFile transFile failFile)).store.translated_data.length := by
  obtain ⟨⟨u1, h1⟩, ⟨u2, h2⟩⟩ :=
    scrape_all_data_storeExt env outputDir (initEngine origFile transFile failFile)
  have e1 : (initEngine origFile transFile failFile).store.original_data =
    load_existing_data origFile := rfl
  have e2 : (initEngine origFile transFile failFile).store.translated_data =
    load_existing_data transFile := rfl
  rw [e1] at h1
  rw [e2] at h2
  refine ⟨⟨u1, h1⟩, ⟨u2, h2⟩, ?_, ?_⟩
  · rw [h1]; simp
  · rw [h2]; simp

/-- C6: translation returns whitespace-only input unchanged without invoking
the remote capability, returns the original text whenever the remote call
fails, and in particular `translate("", "en") = ""` and a failing adapter
leaves "FEBRERO" unchanged. -/
theorem C6_translate (tr : String → String → Option String) (dest s : String) :
    (pyStrip s = "" → translate_text tr s dest = (s, [])) ∧
    (tr s dest = none → (translate_text tr s dest).1 = s) ∧
    translate_text tr "" "en" = ("", []) ∧
    translate_text (fun _ _ => none) "FEBRERO" "en" =
      ("FEBRERO", [("FEBRERO", "en")]) := by
  refine ⟨fun h => ?_, fun h => ?_, ?_, ?_⟩
  · simp [translate_text, h]
  · by_cases he : s = "" ∨ pyStrip s = ""
    · simp [translate_text, he]
    · simp [translate_text, he, h]
  · rfl
  · decide

/-- Witness for C6_translate: a whitespace-only input and a failing oracle. -/
theorem C6_translate_witness :
    translate_text (fun _ _ => none) " " "en" = (" ", []) ∧
    (translate_text (fun _ _ => none) "X" "en").1 = "X" :=
  ⟨(C6_translate (fun _ _ => none) "en" " ").1 (by decide),
   (C6_translate (fun _ _ => none) "en" "X").2.1 rfl⟩

/-- C7 counterexample: an option with a non-sentinel value and an empty label
is dropped by the code, although the claim's filter (value sentinel or
placeholder label only) would keep it. -/
theorem C7_counterexample :
    get_available_options (some [⟨"1", ""⟩]) = [] ∧
    get_available_options_claimed (some [⟨"1", ""⟩]) = [⟨"1", ""⟩] ∧
    get_available_options (some [⟨"1", ""⟩]) ≠
      get_available_options_claimed (some [⟨"1", ""⟩]) := by
  decide

/-- C7 (amended): option labels are whitespace-stripped; options whose value
is the empty/zero sentinel, whose stripped label is empty, or whose stripped
label contains "Seleccione" or "Select" are dropped; the remaining options
are returned in order with stripped labels, and a missing control yields an
empty sequence rather than an error. -/
theorem C7_list_options (dd : Option (List Opt)) :
    get_available_options dd = get_available_options_spec dd ∧
    get_available_options none = [] :=
  ⟨get_available_options_eq_spec dd, rfl⟩

/-- C8: the stored tariff value is the extracted cell text of the last
`<td>` cell with every comma removed and nothing else changed; in particular
"1,234.56" is stored as "1234.56". -/
theorem C8_tariff_value (fare region muni divi year : String) (month : Nat)
    (now : String) (i : Nat) (r : HtmlRow) :
    (mkRowData fare region muni divi year month now i r).tariff_value =
      ⟨(extract_clean_text (r.td.getD (r.td.length - 1) ⟨"", ""⟩)).data.filter
        (· ≠ ',')⟩ ∧
    (extract_table_data_simplified "F" "R" "M" "D" "2024" 9 "t"
      (some tableComma)).map (·.tariff_value) = ["1234.56"] := by
  constructor
  · simp [mkRowData, pyReplaceS_comma]
  · have h := pyReplaceS_comma (extract_clean_text (sampleCell "1,234.56"))
    simp only [extract_table_data_simplified, tableComma, extractLoop, mkRowData]
    norm_num
    simp only [h]
    decide

/-- C9: `create_safe_filename` maps exactly the characters space, `/`, `\`,
`:`, `*`, `?`, `"`, `<`, `>`, `|`, `.` to `_` and leaves every other
character unchanged. -/
theorem C9_safe_filename (s : String) :
    create_safe_filename s = ⟨s.data.map safeChar⟩ :=
  create_safe_filename_eq s

/-- C10: translating a record changes at most the six designated fields,
keeping id, year, month, extracted_at, fare and tariff_value; appending a
non-empty batch grows both consolidated collections by exactly the batch
size, and appending an empty batch changes nothing and writes no file. -/
theorem C10_frame (tr : String → String → Option String) (outputDir : String)
    (st : Store) (fare region muni divi year : String) (month : Nat) :
    (∀ r : RowData,
      (translate_data_record tr r).id = r.id ∧
      (translate_data_record tr r).year = r.year ∧
      (translate_data_record tr r).month = r.month ∧
      (translate_data_record tr r).extracted_at = r.extracted_at ∧
      (translate_data_record tr r).fare = r.fare ∧
      (translate_data_record tr r).tariff_value = r.tariff_value) ∧
    (∀ new_data : List RowData, new_data ≠ [] →
      (append_and_save_data tr outputDir st new_data fare region muni divi year
        month).1.original_data.length = st.original_data.length + new_data.length ∧
      (append_and_save_data tr outputDir st new_data fare region muni divi year
        month).1.translated_data.length =
        st.translated_data.length + new_data.length) ∧
    append_and_save_data tr outputDir st [] fare region muni divi year month =
      (st, []) := by
  refine ⟨fun r => ⟨rfl, rfl, rfl, rfl, rfl, rfl⟩, fun nd h => ?_, ?_⟩
  · simp [append_and_save_data, h]
  · simp [append_and_save_data]

/-- Witness for C10_frame: appending a singleton batch grows both
collections by one. -/
theorem C10_frame_witness :
    (append_and_save_data (fun _ _ => none) "o" ⟨[], []⟩ [sampleRecord] "F" "R"
      "M" "D" "2024" 9).1.original_data.length =
      (Store.mk [] []).original_data.length + [sampleRecord].length ∧
    (append_and_save_data (fun _ _ => none) "o" ⟨[], []⟩ [sampleRecord] "F" "R"
      "M" "D" "2024" 9).1.translated_data.length =
      (Store.mk [] []).translated_data.length + [sampleRecord].length :=
  (C10_frame (fun _ _ => none) "o" ⟨[], []⟩ "F" "R" "M" "D" "2024" 9).2.1
    [sampleRecord] (by decide)

end Scraper
